import Mathlib

/-!
Shallow embedding of the Santa Platformer core (player physics, power-ups,
enemy patrol, level progression) translated from the Python sources
`player.py`, `physics.py`, `enemy.py`, `game.py`, `level.py`, `constants.py`.

Modelling conventions:
* Python floats are modelled as rationals (`ℚ`); every operation the claims
  touch is exact in that range (integer constants, `+`, `*` by 9/5, `int()`
  truncation), so no rounding behaviour is lost.
* `pygame.Rect` stores integer coordinates; assigning a float truncates
  toward zero, as does Python's `int()`. Both are `pyInt` below.
* `pygame.Rect.colliderect` is a strict-overlap test on both axes
  (touching edges do not collide).
* Rendering-only fields (textures, animation frames, surfaces) are omitted:
  they are never read by the logic the claims are about.
* Times (`pygame.time.get_ticks()`) and durations are integer milliseconds,
  modelled as `ℤ` and passed explicitly where Python reads ambient time.
-/

namespace Santa

/-- Truncation toward zero, the semantics of Python `int(float)` and of
assigning a float to a `pygame.Rect` coordinate. -/
def pyInt (q : ℚ) : ℤ := if q < 0 then ⌈q⌉ else ⌊q⌋

/-- Python `pygame.Rect`: integer x, y, width, height. -/
structure Rect where
  x : ℤ
  y : ℤ
  w : ℤ
  h : ℤ
  deriving DecidableEq, Repr

def Rect.left (r : Rect) : ℤ := r.x

def Rect.top (r : Rect) : ℤ := r.y

def Rect.right (r : Rect) : ℤ := r.x + r.w

def Rect.bottom (r : Rect) : ℤ := r.y + r.h

/-- Assignment `rect.right = v` keeps the size and moves the origin. -/
def Rect.setRight (r : Rect) (v : ℤ) : Rect := { r with x := v - r.w }

/-- Assignment `rect.left = v`. -/
def Rect.setLeft (r : Rect) (v : ℤ) : Rect := { r with x := v }

/-- Assignment `rect.top = v`. -/
def Rect.setTop (r : Rect) (v : ℤ) : Rect := { r with y := v }

/-- Assignment `rect.bottom = v`. -/
def Rect.setBottom (r : Rect) (v : ℤ) : Rect := { r with y := v - r.h }

/-- Test `pygame.Rect.colliderect`: strict overlap on both axes. -/
def collide (a b : Rect) : Bool :=
  decide (a.x < b.x + b.w) && decide (a.x + a.w > b.x) &&
  decide (a.y < b.y + b.h) && decide (a.y + a.h > b.y)

/-! ## Constants (`constants.py`) -/

def GRAVITY : ℚ := 3 / 5

def MAX_FALL : ℚ := 15

def BASE_SPEED : ℚ := 5

def BASE_JUMP : ℚ := -13

def PLAYER_WIDTH : ℤ := 40

def PLAYER_HEIGHT : ℤ := 60

def SPEED_BOOST_MULTIPLIER : ℚ := 9 / 5

def DOUBLE_JUMP_DURATION : ℤ := 15000

def SPEED_BOOST_DURATION : ℤ := 8000

def INVINCIBILITY_DURATION : ℤ := 6000

def RESPAWN_INVINCIBILITY_DURATION : ℤ := 1200

def LEVEL_COMPLETE_DELAY : ℤ := 3000

def GROUND_HEIGHT : ℤ := 40

def STARTING_LIVES : ℤ := 3

/-! ## Power-up kinds and the `power_until` timer map (`player.py`) -/

inductive PType where
  | speed_boost
  | double_jump
  | invincibility
  deriving DecidableEq, Repr

/-- The `power_until` dictionary: absolute expiry timestamp per kind. -/
structure PowerUntil where
  speed_boost : ℤ
  double_jump : ℤ
  invincibility : ℤ
  deriving DecidableEq, Repr

def PowerUntil.get (m : PowerUntil) : PType → ℤ
  | .speed_boost => m.speed_boost
  | .double_jump => m.double_jump
  | .invincibility => m.invincibility

def PowerUntil.set (m : PowerUntil) : PType → ℤ → PowerUntil
  | .speed_boost, v => { m with speed_boost := v }
  | .double_jump, v => { m with double_jump := v }
  | .invincibility, v => { m with invincibility := v }

/-! ## Player (`player.py`) -/

structure Player where
  w : ℤ
  h : ℤ
  rect : Rect
  x : ℚ
  y : ℚ
  vx : ℚ
  vy : ℚ
  base_speed : ℚ
  speed : ℚ
  jump_strength : ℚ
  max_jumps : ℤ
  jumps_remaining : ℤ
  facing_right : Bool
  power_until : PowerUntil
  hit_invincible_until : ℤ
  deriving DecidableEq, Repr

namespace Player

/-- Constructor `Player.__init__(start_x, start_y)` (animation/texture fields omitted). -/
def init (start_x start_y : ℤ) : Player :=
  { w := PLAYER_WIDTH
    h := PLAYER_HEIGHT
    rect := { x := start_x, y := start_y, w := PLAYER_WIDTH, h := PLAYER_HEIGHT }
    x := (start_x : ℚ)
    y := (start_y : ℚ)
    vx := 0
    vy := 0
    base_speed := BASE_SPEED
    speed := BASE_SPEED
    jump_strength := BASE_JUMP
    max_jumps := 1
    jumps_remaining := 1
    facing_right := true
    power_until := { speed_boost := 0, double_jump := 0, invincibility := 0 }
    hit_invincible_until := 0 }

/-- Method `Player.is_invincible(now_ms)`. -/
def is_invincible (p : Player) (now_ms : ℤ) : Bool :=
  decide (now_ms < p.power_until.invincibility) ||
  decide (now_ms < p.hit_invincible_until)

/-- Method `Player.update_powerups(now_ms)`. -/
def update_powerups (p : Player) (now_ms : ℤ) : Player :=
  let p :=
    if now_ms < p.power_until.speed_boost then
      { p with speed := p.base_speed * SPEED_BOOST_MULTIPLIER }
    else
      { p with speed := p.base_speed }
  if now_ms < p.power_until.double_jump then
    { p with max_jumps := 2 }
  else
    { p with max_jumps := 1 }

/-- Method `Player.apply_powerup(ptype, duration_ms, now_ms)`.  The timer write
happens first; the double-jump branch then reads the freshly written
`power_until['double_jump']`. -/
def apply_powerup (p : Player) (ptype : PType) (duration_ms now_ms : ℤ) : Player :=
  let p := { p with power_until := p.power_until.set ptype (now_ms + duration_ms) }
  match ptype with
  | .double_jump =>
      { p with jumps_remaining :=
          if now_ms < p.power_until.double_jump then p.max_jumps else p.jumps_remaining }
  | _ => p

/-- Method `Player.respawn(start_x, start_y)`; `now_ms` stands for the ambient
`pygame.time.get_ticks()` read inside the method. -/
def respawn (p : Player) (start_x start_y : ℤ) (now_ms : ℤ) : Player :=
  { p with
    x := (start_x : ℚ)
    y := (start_y : ℚ)
    rect := { p.rect with x := start_x, y := start_y }
    vx := 0
    vy := 0
    hit_invincible_until := now_ms + RESPAWN_INVINCIBILITY_DURATION }

/-- Method `Player.jump()`: returns the mutated player and whether a jump happened. -/
def jump (p : Player) : Player × Bool :=
  if p.jumps_remaining > 0 then
    ({ p with vy := p.jump_strength, jumps_remaining := p.jumps_remaining - 1 }, true)
  else
    (p, false)

/-- Method `Player.apply_physics()`: gravity, terminal velocity, integration,
rect resync. -/
def apply_physics (p : Player) : Player :=
  let vy := p.vy + GRAVITY
  let vy := if vy > MAX_FALL then MAX_FALL else vy
  let x := p.x + p.vx
  let y := p.y + vy
  { p with vy := vy, x := x, y := y,
           rect := { p.rect with x := pyInt x, y := pyInt y } }

/-- One iteration of the loop body of
`Player.resolve_horizontal_collisions`. -/
def hcolStep (p : Player) (plat : Rect) : Player :=
  if collide p.rect plat then
    let r :=
      if p.vx > 0 then p.rect.setRight plat.left
      else if p.vx < 0 then p.rect.setLeft plat.right
      else p.rect
    { p with rect := r, x := (r.x : ℚ) }
  else p

/-- Method `Player.resolve_horizontal_collisions(platforms)`. -/
def resolve_horizontal_collisions (p : Player) (platforms : List Rect) : Player :=
  let p := { p with rect := { p.rect with x := pyInt p.x } }
  platforms.foldl hcolStep p

/-- One iteration of the loop body of `Player.resolve_vertical_collisions`;
the boolean accumulates `on_ground`. -/
def vcolStep (s : Player × Bool) (plat : Rect) : Player × Bool :=
  let p := s.1
  if collide p.rect plat then
    if p.vy > 0 then
      let r := p.rect.setBottom plat.top
      ({ p with rect := r, vy := 0, y := (r.y : ℚ),
                jumps_remaining := p.max_jumps }, true)
    else if p.vy < 0 then
      let r := p.rect.setTop plat.bottom
      ({ p with rect := r, vy := 0, y := (r.y : ℚ) }, s.2)
    else s
  else s

/-- Method `Player.resolve_vertical_collisions(platforms)`: returns the mutated
player and `on_ground`. -/
def resolve_vertical_collisions (p : Player) (platforms : List Rect) :
    Player × Bool :=
  let p := { p with rect := { p.rect with y := pyInt p.y } }
  platforms.foldl vcolStep (p, false)

/-- Method `Player.clamp_to_level_bounds(level_width, level_height)`: four
independent `if`s, in source order. -/
def clamp_to_level_bounds (p : Player) (level_width level_height : ℤ) : Player :=
  let p :=
    if p.rect.left < 0 then
      let r := p.rect.setLeft 0
      { p with rect := r, x := (r.x : ℚ) }
    else p
  let p :=
    if p.rect.right > level_width then
      let r := p.rect.setRight level_width
      { p with rect := r, x := (r.x : ℚ) }
    else p
  let p :=
    if p.rect.top < 0 then
      let r := p.rect.setTop 0
      { p with rect := r, y := (r.y : ℚ) }
    else p
  if p.rect.bottom > level_height then
    let r := p.rect.setBottom level_height
    { p with rect := r, y := (r.y : ℚ), vy := 0,
             jumps_remaining := p.max_jumps }
  else p

end Player

/-! ## Free physics functions (`physics.py`), translated independently of
the `Player` methods they duplicate. -/

namespace Physics

/-- Loop body of `physics.resolve_horizontal`. -/
def hStep (p : Player) (plat : Rect) : Player :=
  if collide p.rect plat then
    let r :=
      if p.vx > 0 then p.rect.setRight plat.left
      else if p.vx < 0 then p.rect.setLeft plat.right
      else p.rect
    { p with rect := r, x := (r.x : ℚ) }
  else p

/-- Function `physics.resolve_horizontal(player, platforms)`. -/
def resolve_horizontal (p : Player) (platforms : List Rect) : Player :=
  let p := { p with rect := { p.rect with x := pyInt p.x } }
  platforms.foldl hStep p

/-- Loop body of `physics.resolve_vertical`. -/
def vStep (s : Player × Bool) (plat : Rect) : Player × Bool :=
  let p := s.1
  if collide p.rect plat then
    if p.vy > 0 then
      let r := p.rect.setBottom plat.top
      ({ p with rect := r, vy := 0, y := (r.y : ℚ),
                jumps_remaining := p.max_jumps }, true)
    else if p.vy < 0 then
      let r := p.rect.setTop plat.bottom
      ({ p with rect := r, vy := 0, y := (r.y : ℚ) }, s.2)
    else s
  else s

/-- Function `physics.resolve_vertical(player, platforms)`. -/
def resolve_vertical (p : Player) (platforms : List Rect) : Player × Bool :=
  let p := { p with rect := { p.rect with y := pyInt p.y } }
  platforms.foldl vStep (p, false)

/-- Function `physics.clamp_horizontal(player, level_width)` (note the `elif`). -/
def clamp_horizontal (p : Player) (level_width : ℤ) : Player :=
  if p.rect.left < 0 then
    let r := p.rect.setLeft 0
    { p with rect := r, x := (r.x : ℚ) }
  else if p.rect.right > level_width then
    let r := p.rect.setRight level_width
    { p with rect := r, x := (r.x : ℚ) }
  else p

/-- Function `physics.clamp_vertical(player, level_height)` (note the `elif`):
the top branch zeroes `vy`; the bottom branch zeroes `vy` and refills
jumps. -/
def clamp_vertical (p : Player) (level_height : ℤ) : Player :=
  if p.rect.top < 0 then
    let r := p.rect.setTop 0
    { p with rect := r, y := (r.y : ℚ), vy := 0 }
  else if p.rect.bottom > level_height then
    let r := p.rect.setBottom level_height
    { p with rect := r, y := (r.y : ℚ), vy := 0,
             jumps_remaining := p.max_jumps }
  else p

end Physics

/-! ## The per-frame boundary clamp inlined in `Game.update_physics`
(`game.py` lines 129-150).  The vertical part differs from
`physics.clamp_vertical`: the top branch does NOT zero `vy`. -/

namespace Game

/-- Horizontal clamp from `Game.update_physics` (two independent `if`s). -/
def clampHorizontalBounds (p : Player) (level_width : ℤ) : Player :=
  let p :=
    if p.rect.left < 0 then
      let r := p.rect.setLeft 0
      { p with rect := r, x := (r.x : ℚ) }
    else p
  if p.rect.right > level_width then
    let r := p.rect.setRight level_width
    { p with rect := r, x := (r.x : ℚ) }
  else p

/-- Vertical clamp from `Game.update_physics` (two independent `if`s):
top branch moves the rect and resyncs `y` only; bottom branch also zeroes
`vy` and refills `jumps_remaining`. -/
def clampVerticalBounds (p : Player) (level_height : ℤ) : Player :=
  let p :=
    if p.rect.top < 0 then
      let r := p.rect.setTop 0
      { p with rect := r, y := (r.y : ℚ) }
    else p
  if p.rect.bottom > level_height then
    let r := p.rect.setBottom level_height
    { p with rect := r, y := (r.y : ℚ), vy := 0,
             jumps_remaining := p.max_jumps }
  else p

end Game

/-! ## Enemy patrol (`enemy.py`) -/

structure Enemy where
  rect : Rect
  vx : ℚ
  patrol_min : ℤ
  patrol_max : ℤ
  speed : ℚ
  facing_right : Bool
  deriving DecidableEq, Repr

namespace Enemy

/-- Constructor `Enemy.__init__(x, y, w, h, patrol_min_x, patrol_max_x, speed)`
(texture omitted). -/
def init (x y w h patrol_min_x patrol_max_x : ℤ) (speed : ℚ) : Enemy :=
  { rect := { x := x, y := y, w := w, h := h }
    vx := speed
    patrol_min := patrol_min_x
    patrol_max := patrol_max_x
    speed := speed
    facing_right := true }

/-- Method `Enemy.update()`: `self.rect.x += self.vx` (pygame truncates the float
sum toward zero on assignment), then the boundary checks. -/
def update (e : Enemy) : Enemy :=
  let e := { e with rect := { e.rect with x := pyInt ((e.rect.x : ℚ) + e.vx) } }
  if e.rect.x < e.patrol_min then
    { e with rect := { e.rect with x := e.patrol_min },
             vx := |e.speed|, facing_right := true }
  else if e.rect.x > e.patrol_max then
    { e with rect := { e.rect with x := e.patrol_max },
             vx := -|e.speed|, facing_right := false }
  else e

end Enemy

/-! ## Level data and the level manager (`levels.py`, `level.py`).
Backgrounds, overlays and the random cosmetic present textures are
rendering-only and omitted; presents are kept as their rectangles. -/

structure EnemyData where
  x : ℤ
  y : ℤ
  w : ℤ
  h : ℤ
  patrol_min_x : ℤ
  patrol_max_x : ℤ
  speed : ℚ
  deriving DecidableEq, Repr

structure PowerupData where
  rect : Rect
  ptype : PType
  deriving DecidableEq, Repr

/-- One record of the `LEVELS` table (`levels.py`), with the fields
`LevelManager.load_level` reads. -/
structure LevelData where
  name : String
  width : ℤ
  height : ℤ
  player_start : ℤ × ℤ
  goal : Rect
  platforms : List Rect
  presents : List Rect
  powerups : List PowerupData
  enemies : List EnemyData
  deriving DecidableEq, Repr

structure LevelManager where
  levels_data : List LevelData
  completed : Bool
  index : ℤ
  total_presents : ℤ
  name : String
  platforms : List Rect
  presents : List Rect
  powerups : List PowerupData
  enemies : List Enemy
  ground : Rect
  goal : Rect
  player_start : ℤ × ℤ
  width : ℤ
  height : ℤ
  deriving DecidableEq, Repr

namespace LevelManager

/-- Method `LevelManager.load_level(index)`: the bounds check raises `IndexError`
before any field is written, so on the error path the manager is
observably unchanged; this is modelled by returning `Except.error` without
producing a state.  The success path rebuilds all level objects from the
static data. -/
def load_level (lm : LevelManager) (index : ℤ) : Except Unit LevelManager :=
  if h : 0 ≤ index ∧ index < (lm.levels_data.length : ℤ) then
    let data := lm.levels_data.get ⟨index.toNat, by omega⟩
    .ok { lm with
          index := index
          completed := false
          name := data.name
          width := data.width
          height := data.height
          ground := { x := 0, y := data.height - GROUND_HEIGHT,
                      w := data.width, h := GROUND_HEIGHT }
          platforms := data.platforms
          player_start := data.player_start
          goal := data.goal
          presents := data.presents
          powerups := data.powerups
          enemies := data.enemies.map fun e =>
            Enemy.init e.x e.y e.w e.h e.patrol_min_x e.patrol_max_x e.speed
          total_presents := (data.presents.length : ℤ) }
  else
    .error ()

/-- Method `LevelManager.next_level()`: `some` is Python `True` (advanced),
`none` is `False` (no more levels).  Mirrors `self.index += 1` followed by
`self.load_level(self.index)`. -/
def next_level (lm : LevelManager) : Option LevelManager :=
  if lm.index + 1 < (lm.levels_data.length : ℤ) then
    (load_level { lm with index := lm.index + 1 } (lm.index + 1)).toOption
  else
    none

end LevelManager

/-! ## The orchestrator's progression slice (`game.py`):
`handle_goal_collision`, the goal check in `check_collisions`, and
`handle_level_progression`.  Only the state those functions read and
write is modelled; `show_message` calls are display-only. -/

namespace Game

/-- The progression-relevant slice of `Game` state. -/
structure ProgState where
  score : ℤ
  total_presents : ℤ
  completed : Bool
  level_complete_time : Option ℤ
  level_index : ℤ
  level_count : ℤ
  lives : ℤ
  deriving DecidableEq, Repr

/-- Method `Game.handle_goal_collision` (`now` is `pygame.time.get_ticks()`). -/
def handle_goal_collision (g : ProgState) (now : ℤ) : ProgState :=
  if g.score ≥ g.total_presents then
    if !g.completed then
      { g with completed := true, level_complete_time := some now }
    else g
  else g

/-- The goal-collision check at the end of `Game.check_collisions`:
`handle_goal_collision` runs only when the player's rectangle overlaps the
goal rectangle. -/
def check_goal (g : ProgState) (player_rect goal_rect : Rect) (now : ℤ) :
    ProgState :=
  if collide player_rect goal_rect then handle_goal_collision g now else g

/-- Method `Game.handle_level_progression`: the returned boolean reports whether
`level_manager.next_level()` was invoked this frame.  On a successful
advance the score resets and the completion state clears; on failure the
victory path restarts the game from level 0. -/
def handle_level_progression (g : ProgState) (now : ℤ) : ProgState × Bool :=
  match g.level_complete_time with
  | some t =>
      if g.completed ∧ now - t > LEVEL_COMPLETE_DELAY then
        if g.level_index + 1 < g.level_count then
          ({ g with level_index := g.level_index + 1, score := 0,
                    completed := false, level_complete_time := none }, true)
        else
          ({ g with level_index := 0, score := 0, lives := STARTING_LIVES,
                    completed := false, level_complete_time := none }, true)
      else (g, false)
  | none => (g, false)

end Game

/-! ## Operation sequences on a player (for the jump-budget invariant).
One constructor per operation named by the claim: jump, power-up
application, power-up update, respawn, per-axis collision resolution and
boundary clamping; gravity integration is included for completeness. -/

inductive POp where
  | jump
  | applyPowerup (ptype : PType) (duration_ms now_ms : ℤ)
  | updatePowerups (now_ms : ℤ)
  | respawn (x y now_ms : ℤ)
  | applyPhysics
  | resolveHorizontal (platforms : List Rect)
  | resolveVertical (platforms : List Rect)
  | clampBounds (level_width level_height : ℤ)
  deriving DecidableEq, Repr

/-- Apply one player operation. -/
def pstep (p : Player) : POp → Player
  | .jump => (p.jump).1
  | .applyPowerup k d n => p.apply_powerup k d n
  | .updatePowerups n => p.update_powerups n
  | .respawn x y n => p.respawn x y n
  | .applyPhysics => p.apply_physics
  | .resolveHorizontal plats => p.resolve_horizontal_collisions plats
  | .resolveVertical plats => (p.resolve_vertical_collisions plats).1
  | .clampBounds w h => p.clamp_to_level_bounds w h

/-- Run a sequence of player operations from left to right. -/
def prun (p : Player) (ops : List POp) : Player :=
  ops.foldl pstep p

/-- The session state around the player (`game.py`): lives and score live
on `Game`, not on `Player`. -/
structure Session where
  lives : ℤ
  score : ℤ
  player : Player
  deriving DecidableEq, Repr

/-- A `player.respawn(x, y)` call as it occurs inside a game session
(`Game.handle_enemy_collision` line 217): only the player is touched. -/
def Session.respawnPlayer (s : Session) (start_x start_y now_ms : ℤ) : Session :=
  { s with player := s.player.respawn start_x start_y now_ms }

end Santa

namespace Santa

/-! # Theorems for the claims -/

/-- C7: for every power-up kind, duration and time, immediately after
`apply_powerup(kind, duration, now_ms)` the timer satisfies
`power_until[kind] == now_ms + duration` exactly, regardless of any prior
(even unexpired) timer for that kind: reapplying overwrites the expiry and
never adds the remaining time. -/
theorem C7_apply_powerup_overwrites_timer (p : Player) (k : PType)
    (duration_ms now_ms : ℤ) :
    ((p.apply_powerup k duration_ms now_ms).power_until).get k
      = now_ms + duration_ms := by
  cases k <;> simp [Player.apply_powerup, PowerUntil.set, PowerUntil.get]

/-- C1 (counterexample): on a freshly constructed player (`max_jumps = 1`),
`apply_powerup('double_jump', 15000, 0)` leaves `jumps_remaining = 1`, not
2, even though the new window `0 + 15000` is still active: the method
refills to the *current* `max_jumps`, which `update_powerups` has not yet
raised to 2. -/
theorem C1_counterexample_no_immediate_two_jumps :
    (0 : ℤ) < 0 + 15000 ∧
      ((Player.init 0 0).apply_powerup PType.double_jump 15000 0).jumps_remaining
        ≠ 2 := by
  decide

/-- C1 (amended): `apply_powerup('double_jump', duration, now_ms)` sets
`jumps_remaining` to the player's current `max_jumps` when the new window
`now_ms + duration` is still active (and leaves it unchanged otherwise);
`max_jumps` itself is not changed by the call, so the refill reaches 2
only when `max_jumps` was already 2. -/
theorem C1_amended_double_jump_refills_current_max (p : Player)
    (duration_ms now_ms : ℤ) :
    ((p.apply_powerup PType.double_jump duration_ms now_ms).jumps_remaining
        = if now_ms < now_ms + duration_ms then p.max_jumps
          else p.jumps_remaining) ∧
      (p.apply_powerup PType.double_jump duration_ms now_ms).max_jumps
        = p.max_jumps := by
  constructor <;> simp [Player.apply_powerup, PowerUntil.set]

/-- C9: `respawn(x, y)` sets the float position to exactly
`(float(x), float(y))`, puts the rectangle top-left at `(x, y)`, zeroes
both velocity components and sets the hit-invincibility expiry to
`now + 1200`, so `is_invincible(t)` holds for every `t < now + 1200`;
the power-up timer map, the jump fields, and the session's lives and
score are unchanged. -/
theorem C9_respawn_resets_position_velocity_and_grace (s : Session)
    (sx sy now_ms t : ℤ) (ht : t < now_ms + RESPAWN_INVINCIBILITY_DURATION) :
    ((s.respawnPlayer sx sy now_ms).player.x = (sx : ℚ)) ∧
    ((s.respawnPlayer sx sy now_ms).player.y = (sy : ℚ)) ∧
    ((s.respawnPlayer sx sy now_ms).player.rect.x = sx) ∧
    ((s.respawnPlayer sx sy now_ms).player.rect.y = sy) ∧
    ((s.respawnPlayer sx sy now_ms).player.vx = 0) ∧
    ((s.respawnPlayer sx sy now_ms).player.vy = 0) ∧
    ((s.respawnPlayer sx sy now_ms).player.hit_invincible_until
        = now_ms + RESPAWN_INVINCIBILITY_DURATION) ∧
    ((s.respawnPlayer sx sy now_ms).player.is_invincible t = true) ∧
    ((s.respawnPlayer sx sy now_ms).player.power_until = s.player.power_until) ∧
    ((s.respawnPlayer sx sy now_ms).player.max_jumps = s.player.max_jumps) ∧
    ((s.respawnPlayer sx sy now_ms).player.jumps_remaining
        = s.player.jumps_remaining) ∧
    ((s.respawnPlayer sx sy now_ms).player.speed = s.player.speed) ∧
    ((s.respawnPlayer sx sy now_ms).lives = s.lives) ∧
    ((s.respawnPlayer sx sy now_ms).score = s.score) := by
  refine ⟨rfl, rfl, rfl, rfl, rfl, rfl, rfl, ?_, rfl, rfl, rfl, rfl, rfl, rfl⟩
  simp only [Session.respawnPlayer, Player.respawn, Player.is_invincible,
    Bool.or_eq_true, decide_eq_true_eq]
  right
  exact ht

/-- C9 (witness): the respawn theorem applied to the spec's Scenario 5
input, a session respawning its player at (80, 480) at `now = 1000` with
`t = 2100 < 1000 + 1200`. -/
theorem C9_respawn_witness :
    (2100 : ℤ) < 1000 + RESPAWN_INVINCIBILITY_DURATION ∧
      (((⟨3, 0, Player.init 0 0⟩ : Session).respawnPlayer 80 480 1000).player.x = ((80 : ℤ) : ℚ)) ∧
      (((⟨3, 0, Player.init 0 0⟩ : Session).respawnPlayer 80 480 1000).player.y = ((480 : ℤ) : ℚ)) ∧
      (((⟨3, 0, Player.init 0 0⟩ : Session).respawnPlayer 80 480 1000).player.rect.x = 80) ∧
      (((⟨3, 0, Player.init 0 0⟩ : Session).respawnPlayer 80 480 1000).player.rect.y = 480) ∧
      (((⟨3, 0, Player.init 0 0⟩ : Session).respawnPlayer 80 480 1000).player.vx = 0) ∧
      (((⟨3, 0, Player.init 0 0⟩ : Session).respawnPlayer 80 480 1000).player.vy = 0) ∧
      (((⟨3, 0, Player.init 0 0⟩ : Session).respawnPlayer 80 480 1000).player.hit_invincible_until = 1000 + RESPAWN_INVINCIBILITY_DURATION) ∧
      (((⟨3, 0, Player.init 0 0⟩ : Session).respawnPlayer 80 480 1000).player.is_invincible 2100 = true) ∧
      (((⟨3, 0, Player.init 0 0⟩ : Session).respawnPlayer 80 480 1000).player.power_until = (Player.init 0 0).power_until) ∧
      (((⟨3, 0, Player.init 0 0⟩ : Session).respawnPlayer 80 480 1000).player.max_jumps = (Player.init 0 0).max_jumps) ∧
      (((⟨3, 0, Player.init 0 0⟩ : Session).respawnPlayer 80 480 1000).player.jumps_remaining = (Player.init 0 0).jumps_remaining) ∧
      (((⟨3, 0, Player.init 0 0⟩ : Session).respawnPlayer 80 480 1000).player.speed = (Player.init 0 0).speed) ∧
      (((⟨3, 0, Player.init 0 0⟩ : Session).respawnPlayer 80 480 1000).lives = 3) ∧
      (((⟨3, 0, Player.init 0 0⟩ : Session).respawnPlayer 80 480 1000).score = 0) :=
  ⟨by decide,
    C9_respawn_resets_position_velocity_and_grace ⟨3, 0, Player.init 0 0⟩ 80 480 1000 2100
      (by decide)⟩

/-- C10: the free functions `physics.resolve_horizontal` and
`physics.resolve_vertical` produce exactly the same final player state
(and, vertically, the same `on_ground` flag) as the player methods
`resolve_horizontal_collisions` and `resolve_vertical_collisions`: the two
duplicated implementations are equivalent on every player and platform
list. -/
theorem C10_physics_duplicates_equal_player_methods (p : Player)
    (platforms : List Rect) :
    Physics.resolve_horizontal p platforms
        = p.resolve_horizontal_collisions platforms ∧
      Physics.resolve_vertical p platforms
        = p.resolve_vertical_collisions platforms :=
  ⟨rfl, rfl⟩

/-- Normal form of `Enemy.update`: the truncated move followed by the two
boundary checks, written as a single conditional. -/
theorem Enemy.update_eq (e : Enemy) :
    e.update
      = (if pyInt ((e.rect.x : ℚ) + e.vx) < e.patrol_min then
          { e with rect := { e.rect with x := e.patrol_min },
                   vx := |e.speed|, facing_right := true }
        else if pyInt ((e.rect.x : ℚ) + e.vx) > e.patrol_max then
          { e with rect := { e.rect with x := e.patrol_max },
                   vx := -|e.speed|, facing_right := false }
        else
          { e with rect := { e.rect with x := pyInt ((e.rect.x : ℚ) + e.vx) } }) :=
  rfl

/-- C5: for every enemy whose patrol bounds satisfy
`patrol_min ≤ patrol_max`, after `Enemy.update()` the position invariant
`patrol_min ≤ rect.x ≤ patrol_max` holds, and the velocity sign flips
exactly at the boundaries: `vx` becomes `+|speed|` (facing right) exactly
when the moved `x` fell below `patrol_min`, becomes `-|speed|` (facing
left) exactly when it exceeded `patrol_max`, and is unchanged otherwise. -/
theorem C5_enemy_patrol_bounds_and_turns (e : Enemy)
    (h : e.patrol_min ≤ e.patrol_max) :
    (e.patrol_min ≤ e.update.rect.x ∧ e.update.rect.x ≤ e.patrol_max) ∧
      e.update.vx
        = (if pyInt ((e.rect.x : ℚ) + e.vx) < e.patrol_min then |e.speed|
           else if pyInt ((e.rect.x : ℚ) + e.vx) > e.patrol_max then -|e.speed|
           else e.vx) ∧
      e.update.facing_right
        = (if pyInt ((e.rect.x : ℚ) + e.vx) < e.patrol_min then true
           else if pyInt ((e.rect.x : ℚ) + e.vx) > e.patrol_max then false
           else e.facing_right) := by
  rw [Enemy.update_eq]
  by_cases h1 : pyInt ((e.rect.x : ℚ) + e.vx) < e.patrol_min
  · simp only [if_pos h1]
    exact ⟨⟨le_refl _, h⟩, by trivial, by trivial⟩
  · by_cases h2 : pyInt ((e.rect.x : ℚ) + e.vx) > e.patrol_max
    · simp only [if_neg h1, if_pos h2]
      exact ⟨⟨h, le_refl _⟩, by trivial, by trivial⟩
    · simp only [if_neg h1, if_neg h2]
      refine ⟨⟨?_, ?_⟩, by trivial, by trivial⟩
      · show e.patrol_min ≤ pyInt ((e.rect.x : ℚ) + e.vx)
        omega
      · show pyInt ((e.rect.x : ℚ) + e.vx) ≤ e.patrol_max
        omega

/-- C5 (witness): the patrol theorem applied to the first enemy of level
"Snowy Village", `Enemy(600, 520, 40, 40, 500, 740, 2)`. -/
theorem C5_enemy_patrol_witness :
    (Enemy.init 600 520 40 40 500 740 2).patrol_min
        ≤ (Enemy.init 600 520 40 40 500 740 2).patrol_max ∧
      (((Enemy.init 600 520 40 40 500 740 2).patrol_min
          ≤ (Enemy.init 600 520 40 40 500 740 2).update.rect.x ∧
        (Enemy.init 600 520 40 40 500 740 2).update.rect.x
          ≤ (Enemy.init 600 520 40 40 500 740 2).patrol_max) ∧
      (Enemy.init 600 520 40 40 500 740 2).update.vx
        = (if pyInt (((Enemy.init 600 520 40 40 500 740 2).rect.x : ℚ)
                + (Enemy.init 600 520 40 40 500 740 2).vx)
              < (Enemy.init 600 520 40 40 500 740 2).patrol_min then
             |(Enemy.init 600 520 40 40 500 740 2).speed|
           else if pyInt (((Enemy.init 600 520 40 40 500 740 2).rect.x : ℚ)
                + (Enemy.init 600 520 40 40 500 740 2).vx)
              > (Enemy.init 600 520 40 40 500 740 2).patrol_max then
             -|(Enemy.init 600 520 40 40 500 740 2).speed|
           else (Enemy.init 600 520 40 40 500 740 2).vx) ∧
      (Enemy.init 600 520 40 40 500 740 2).update.facing_right
        = (if pyInt (((Enemy.init 600 520 40 40 500 740 2).rect.x : ℚ)
                + (Enemy.init 600 520 40 40 500 740 2).vx)
              < (Enemy.init 600 520 40 40 500 740 2).patrol_min then
             true
           else if pyInt (((Enemy.init 600 520 40 40 500 740 2).rect.x : ℚ)
                + (Enemy.init 600 520 40 40 500 740 2).vx)
              > (Enemy.init 600 520 40 40 500 740 2).patrol_max then
             false
           else (Enemy.init 600 520 40 40 500 740 2).facing_right)) :=
  ⟨by decide, C5_enemy_patrol_bounds_and_turns _ (by decide)⟩

/-- C8: `load_level(index)` fails with an index-out-of-range error for
every index outside `[0, levelCount)` — a hard failure surfaced to the
caller (the `raise` precedes every field write, so the manager is
unchanged, and no clamping to a valid index occurs) — and succeeds,
loading exactly the requested index, for every index inside the range;
`next_level()` succeeds and loads `index + 1` exactly when
`index + 1 < levelCount` and reports failure otherwise. -/
theorem C8_load_level_bounds_and_next_level (lm : LevelManager) (i : ℤ)
    (hidx : 0 ≤ lm.index) :
    (¬(0 ≤ i ∧ i < (lm.levels_data.length : ℤ)) →
      lm.load_level i = .error ()) ∧
    (0 ≤ i ∧ i < (lm.levels_data.length : ℤ) →
      ∃ lm', lm.load_level i = .ok lm' ∧ lm'.index = i) ∧
    ((∃ lm', lm.next_level = some lm' ∧ lm'.index = lm.index + 1) ↔
      lm.index + 1 < (lm.levels_data.length : ℤ)) := by
  refine ⟨?_, ?_, ?_, ?_⟩
  · intro hni
    unfold LevelManager.load_level
    rw [dif_neg hni]
  · intro hin
    unfold LevelManager.load_level
    rw [dif_pos hin]
    exact ⟨_, rfl, rfl⟩
  · rintro ⟨lm', hsome, _⟩
    by_cases hc : lm.index + 1 < (lm.levels_data.length : ℤ)
    · exact hc
    · unfold LevelManager.next_level at hsome
      rw [if_neg hc] at hsome
      exact absurd hsome (by simp)
  · intro hc
    unfold LevelManager.next_level
    rw [if_pos hc]
    unfold LevelManager.load_level
    have hin : 0 ≤ lm.index + 1 ∧
        lm.index + 1 < (({ lm with index := lm.index + 1 }).levels_data.length : ℤ) :=
      ⟨by omega, hc⟩
    rw [dif_pos hin]
    exact ⟨_, rfl, rfl⟩

/-- C8 (witness): the bounds theorem applied to a two-level manager at
index 0 and the out-of-range request `i = 5`. -/
theorem C8_load_level_witness :
    (0 : ℤ) ≤
      (⟨[⟨"A", 800, 600, (80, 480), ⟨1500, 480, 60, 80⟩, [], [], [], []⟩,
          ⟨"B", 800, 600, (60, 700), ⟨1100, 700, 60, 80⟩, [], [], [], []⟩],
        false, 0, 0, "A", [], [], [], [], ⟨0, 560, 800, 40⟩,
        ⟨1500, 480, 60, 80⟩, (80, 480), 800, 600⟩ : LevelManager).index ∧
    ((¬((0 : ℤ) ≤ 5 ∧ (5 : ℤ) <
        ((⟨[⟨"A", 800, 600, (80, 480), ⟨1500, 480, 60, 80⟩, [], [], [], []⟩,
            ⟨"B", 800, 600, (60, 700), ⟨1100, 700, 60, 80⟩, [], [], [], []⟩],
          false, 0, 0, "A", [], [], [], [], ⟨0, 560, 800, 40⟩,
          ⟨1500, 480, 60, 80⟩, (80, 480), 800, 600⟩ : LevelManager).levels_data.length : ℤ)) →
      (⟨[⟨"A", 800, 600, (80, 480), ⟨1500, 480, 60, 80⟩, [], [], [], []⟩,
          ⟨"B", 800, 600, (60, 700), ⟨1100, 700, 60, 80⟩, [], [], [], []⟩],
        false, 0, 0, "A", [], [], [], [], ⟨0, 560, 800, 40⟩,
        ⟨1500, 480, 60, 80⟩, (80, 480), 800, 600⟩ : LevelManager).load_level 5 = .error ()) ∧
    ((0 : ℤ) ≤ 5 ∧ (5 : ℤ) <
        ((⟨[⟨"A", 800, 600, (80, 480), ⟨1500, 480, 60, 80⟩, [], [], [], []⟩,
            ⟨"B", 800, 600, (60, 700), ⟨1100, 700, 60, 80⟩, [], [], [], []⟩],
          false, 0, 0, "A", [], [], [], [], ⟨0, 560, 800, 40⟩,
          ⟨1500, 480, 60, 80⟩, (80, 480), 800, 600⟩ : LevelManager).levels_data.length : ℤ) →
      ∃ lm', (⟨[⟨"A", 800, 600, (80, 480), ⟨1500, 480, 60, 80⟩, [], [], [], []⟩,
          ⟨"B", 800, 600, (60, 700), ⟨1100, 700, 60, 80⟩, [], [], [], []⟩],
        false, 0, 0, "A", [], [], [], [], ⟨0, 560, 800, 40⟩,
        ⟨1500, 480, 60, 80⟩, (80, 480), 800, 600⟩ : LevelManager).load_level 5 = .ok lm' ∧
        lm'.index = 5) ∧
    ((∃ lm', (⟨[⟨"A", 800, 600, (80, 480), ⟨1500, 480, 60, 80⟩, [], [], [], []⟩,
          ⟨"B", 800, 600, (60, 700), ⟨1100, 700, 60, 80⟩, [], [], [], []⟩],
        false, 0, 0, "A", [], [], [], [], ⟨0, 560, 800, 40⟩,
        ⟨1500, 480, 60, 80⟩, (80, 480), 800, 600⟩ : LevelManager).next_level = some lm' ∧
        lm'.index =
          (⟨[⟨"A", 800, 600, (80, 480), ⟨1500, 480, 60, 80⟩, [], [], [], []⟩,
              ⟨"B", 800, 600, (60, 700), ⟨1100, 700, 60, 80⟩, [], [], [], []⟩],
            false, 0, 0, "A", [], [], [], [], ⟨0, 560, 800, 40⟩,
            ⟨1500, 480, 60, 80⟩, (80, 480), 800, 600⟩ : LevelManager).index + 1) ↔
      (⟨[⟨"A", 800, 600, (80, 480), ⟨1500, 480, 60, 80⟩, [], [], [], []⟩,
          ⟨"B", 800, 600, (60, 700), ⟨1100, 700, 60, 80⟩, [], [], [], []⟩],
        false, 0, 0, "A", [], [], [], [], ⟨0, 560, 800, 40⟩,
        ⟨1500, 480, 60, 80⟩, (80, 480), 800, 600⟩ : LevelManager).index + 1 <
        ((⟨[⟨"A", 800, 600, (80, 480), ⟨1500, 480, 60, 80⟩, [], [], [], []⟩,
            ⟨"B", 800, 600, (60, 700), ⟨1100, 700, 60, 80⟩, [], [], [], []⟩],
          false, 0, 0, "A", [], [], [], [], ⟨0, 560, 800, 40⟩,
          ⟨1500, 480, 60, 80⟩, (80, 480), 800, 600⟩ : LevelManager).levels_data.length : ℤ))) :=
  ⟨by decide,
    C8_load_level_bounds_and_next_level
      ⟨[⟨"A", 800, 600, (80, 480), ⟨1500, 480, 60, 80⟩, [], [], [], []⟩,
         ⟨"B", 800, 600, (60, 700), ⟨1100, 700, 60, 80⟩, [], [], [], []⟩],
        false, 0, 0, "A", [], [], [], [], ⟨0, 560, 800, 40⟩,
        ⟨1500, 480, 60, 80⟩, (80, 480), 800, 600⟩ 5 (by decide)⟩

/-- C2 (counterexample): a player touching the top boundary
(`rect.top = -5 < 0`) while moving up (`vy = -3`) keeps `vy = -3 ≠ 0`
after the vertical boundary clamp performed each frame in
`Game.update_physics`: the per-frame top clamp repositions the rectangle
but does not zero `vy`. -/
theorem C2_counterexample_top_clamp_keeps_vy :
    (let p : Player :=
      { Player.init 0 0 with
        rect := { x := 0, y := -5, w := 40, h := 60 },
        y := (-5 : ℚ), vy := (-3 : ℚ) }
    p.rect.top < 0 ∧ p.vy ≠ 0 ∧
      (Game.clampVerticalBounds p 600).vy = p.vy ∧
      (Game.clampVerticalBounds p 600).rect.top = 0) := by
  decide

/-- Decomposition: `Player.clamp_to_level_bounds` is the horizontal clamp
of `Game.update_physics` followed by its vertical clamp. -/
theorem clamp_to_level_bounds_decomp (p : Player) (lw lh : ℤ) :
    p.clamp_to_level_bounds lw lh
      = Game.clampVerticalBounds (Game.clampHorizontalBounds p lw) lh :=
  rfl

/-- The horizontal boundary clamp leaves every vertically relevant field
untouched. -/
theorem clampHorizontalBounds_preserves_vertical (p : Player) (lw : ℤ) :
    (Game.clampHorizontalBounds p lw).rect.y = p.rect.y ∧
    (Game.clampHorizontalBounds p lw).rect.h = p.rect.h ∧
    (Game.clampHorizontalBounds p lw).vy = p.vy ∧
    (Game.clampHorizontalBounds p lw).jumps_remaining = p.jumps_remaining := by
  simp only [Game.clampHorizontalBounds]
  split_ifs <;> exact ⟨by trivial, by trivial, by trivial, by trivial⟩

/-- C2 (amended): in the vertical boundary clamp performed each frame
(`Game.update_physics`, matching `Player.clamp_to_level_bounds`), hitting
the top boundary repositions the rectangle to `top = 0` without zeroing
`vy` and without refilling jumps, while hitting the bottom boundary
zeroes `vy` and refills `jumps_remaining` to `max_jumps`; only the unused
free function `physics.clamp_vertical` zeroes `vy` at the top (and it,
too, never refills jumps there). -/
theorem C2_amended_boundary_clamp_effects (p : Player) (lw lh : ℤ)
    (hh : p.rect.h ≤ lh) :
    (p.rect.top < 0 →
      (Game.clampVerticalBounds p lh).vy = p.vy ∧
      (Game.clampVerticalBounds p lh).jumps_remaining = p.jumps_remaining ∧
      (Game.clampVerticalBounds p lh).rect.top = 0) ∧
    (p.rect.bottom > lh →
      (Game.clampVerticalBounds p lh).vy = 0 ∧
      (Game.clampVerticalBounds p lh).jumps_remaining = p.max_jumps ∧
      (Game.clampVerticalBounds p lh).rect.bottom = lh) ∧
    (p.rect.top < 0 →
      (p.clamp_to_level_bounds lw lh).vy = p.vy ∧
      (p.clamp_to_level_bounds lw lh).jumps_remaining = p.jumps_remaining) ∧
    (p.rect.top < 0 →
      (Physics.clamp_vertical p lh).vy = 0 ∧
      (Physics.clamp_vertical p lh).jumps_remaining = p.jumps_remaining) := by
  refine ⟨?_, ?_, ?_, ?_⟩
  · intro ht
    simp only [Game.clampVerticalBounds, if_pos ht]
    split_ifs with h2
    · exfalso
      simp only [Rect.bottom, Rect.setTop] at h2
      omega
    · exact ⟨rfl, rfl, rfl⟩
  · intro hb
    have ht : ¬ p.rect.top < 0 := by
      simp only [Rect.bottom] at hb
      simp only [Rect.top]
      omega
    simp only [Game.clampVerticalBounds, if_neg ht, if_pos hb]
    refine ⟨by trivial, by trivial, ?_⟩
    simp only [Rect.bottom, Rect.setBottom]
    omega
  · intro ht
    rw [clamp_to_level_bounds_decomp]
    obtain ⟨hy, hrh, hvy, hjr⟩ := clampHorizontalBounds_preserves_vertical p lw
    have ht' : (Game.clampHorizontalBounds p lw).rect.top < 0 := by
      simp only [Rect.top] at ht ⊢
      omega
    simp only [Game.clampVerticalBounds, if_pos ht']
    split_ifs with h2
    · exfalso
      simp only [Rect.bottom, Rect.setTop] at h2
      omega
    · exact ⟨hvy, hjr⟩
  · intro ht
    simp only [Physics.clamp_vertical, if_pos ht]
    exact ⟨by trivial, by trivial⟩

/-- C2 (witness): the amended clamp theorem applied to a player at the
top boundary (`rect.top = -5`, `vy = -3`) and to a player below the
bottom boundary (`rect.bottom = 640 > 600`, `vy = 5`), both in a
600-pixel-high level. -/
theorem C2_amended_boundary_clamp_witness :
    (({ Player.init 0 0 with
        rect := { x := 0, y := -5, w := 40, h := 60 },
        y := (-5 : ℚ), vy := (-3 : ℚ) } : Player).rect.h ≤ 600 ∧
      ((Game.clampVerticalBounds
          { Player.init 0 0 with
            rect := { x := 0, y := -5, w := 40, h := 60 },
            y := (-5 : ℚ), vy := (-3 : ℚ) } 600).vy
        = ({ Player.init 0 0 with
            rect := { x := 0, y := -5, w := 40, h := 60 },
            y := (-5 : ℚ), vy := (-3 : ℚ) } : Player).vy ∧
      (Game.clampVerticalBounds
          { Player.init 0 0 with
            rect := { x := 0, y := -5, w := 40, h := 60 },
            y := (-5 : ℚ), vy := (-3 : ℚ) } 600).jumps_remaining
        = ({ Player.init 0 0 with
            rect := { x := 0, y := -5, w := 40, h := 60 },
            y := (-5 : ℚ), vy := (-3 : ℚ) } : Player).jumps_remaining ∧
      (Game.clampVerticalBounds
          { Player.init 0 0 with
            rect := { x := 0, y := -5, w := 40, h := 60 },
            y := (-5 : ℚ), vy := (-3 : ℚ) } 600).rect.top = 0)) ∧
    ((Game.clampVerticalBounds
        { Player.init 0 0 with
          rect := { x := 0, y := 580, w := 40, h := 60 },
          y := (580 : ℚ), vy := (5 : ℚ) } 600).vy = 0 ∧
      (Game.clampVerticalBounds
        { Player.init 0 0 with
          rect := { x := 0, y := 580, w := 40, h := 60 },
          y := (580 : ℚ), vy := (5 : ℚ) } 600).jumps_remaining
        = ({ Player.init 0 0 with
            rect := { x := 0, y := 580, w := 40, h := 60 },
            y := (580 : ℚ), vy := (5 : ℚ) } : Player).max_jumps ∧
      (Game.clampVerticalBounds
        { Player.init 0 0 with
          rect := { x := 0, y := 580, w := 40, h := 60 },
          y := (580 : ℚ), vy := (5 : ℚ) } 600).rect.bottom = 600) ∧
    ((Physics.clamp_vertical
        { Player.init 0 0 with
          rect := { x := 0, y := -5, w := 40, h := 60 },
          y := (-5 : ℚ), vy := (-3 : ℚ) } 600).vy = 0 ∧
      (Physics.clamp_vertical
        { Player.init 0 0 with
          rect := { x := 0, y := -5, w := 40, h := 60 },
          y := (-5 : ℚ), vy := (-3 : ℚ) } 600).jumps_remaining
        = ({ Player.init 0 0 with
            rect := { x := 0, y := -5, w := 40, h := 60 },
            y := (-5 : ℚ), vy := (-3 : ℚ) } : Player).jumps_remaining) :=
  ⟨⟨by decide,
    (C2_amended_boundary_clamp_effects
      { Player.init 0 0 with
        rect := { x := 0, y := -5, w := 40, h := 60 },
        y := (-5 : ℚ), vy := (-3 : ℚ) } 800 600 (by decide)).1 (by decide)⟩,
   (C2_amended_boundary_clamp_effects
      { Player.init 0 0 with
        rect := { x := 0, y := 580, w := 40, h := 60 },
        y := (580 : ℚ), vy := (5 : ℚ) } 800 600 (by decide)).2.1 (by decide),
   (C2_amended_boundary_clamp_effects
      { Player.init 0 0 with
        rect := { x := 0, y := -5, w := 40, h := 60 },
        y := (-5 : ℚ), vy := (-3 : ℚ) } 800 600 (by decide)).2.2.2 (by decide)⟩

/-- C6: in the orchestrator's per-frame progression step, the level is
marked complete (with the completion timestamp recorded, and recorded
only once) exactly when the collected-present score has reached
`total_presents` and the player's rectangle overlaps the goal rectangle;
overlapping the goal with too few presents changes no progression state;
and `next_level()` is invoked only when more than `LEVEL_COMPLETE_DELAY`
(3000 ms) have elapsed since the recorded completion timestamp. -/
theorem C6_completion_requires_presents_goal_and_delay (g : Game.ProgState)
    (player_rect goal_rect : Rect) (now : ℤ) :
    ((Game.check_goal g player_rect goal_rect now).completed = true →
      g.completed = true ∨
        (collide player_rect goal_rect = true ∧ g.score ≥ g.total_presents)) ∧
    (g.completed = false →
      (Game.check_goal g player_rect goal_rect now).completed = true →
      (Game.check_goal g player_rect goal_rect now).level_complete_time
        = some now) ∧
    (g.completed = true →
      (Game.check_goal g player_rect goal_rect now).level_complete_time
        = g.level_complete_time) ∧
    (g.score < g.total_presents →
      Game.check_goal g player_rect goal_rect now = g) ∧
    ((Game.handle_level_progression g now).2 = true →
      ∃ t, g.level_complete_time = some t ∧ now - t > LEVEL_COMPLETE_DELAY) := by
  refine ⟨?_, ?_, ?_, ?_, ?_⟩
  · intro hc
    unfold Game.check_goal Game.handle_goal_collision at hc
    by_cases ho : collide player_rect goal_rect = true
    · by_cases hs : g.score ≥ g.total_presents
      · exact Or.inr ⟨ho, hs⟩
      · rw [if_pos ho, if_neg hs] at hc
        exact Or.inl hc
    · rw [if_neg ho] at hc
      exact Or.inl hc
  · intro hnc hc
    unfold Game.check_goal Game.handle_goal_collision at hc ⊢
    by_cases ho : collide player_rect goal_rect = true
    · rw [if_pos ho] at hc ⊢
      by_cases hs : g.score ≥ g.total_presents
      · rw [if_pos hs] at hc ⊢
        have hb : (!g.completed) = true := by simp [hnc]
        rw [if_pos hb]
      · rw [if_neg hs] at hc
        rw [hnc] at hc
        exact absurd hc (by simp)
    · rw [if_neg ho] at hc
      rw [hnc] at hc
      exact absurd hc (by simp)
  · intro hcomp
    unfold Game.check_goal Game.handle_goal_collision
    by_cases ho : collide player_rect goal_rect = true
    · rw [if_pos ho]
      by_cases hs : g.score ≥ g.total_presents
      · rw [if_pos hs]
        have hb : ¬ (!g.completed) = true := by simp [hcomp]
        rw [if_neg hb]
      · rw [if_neg hs]
    · rw [if_neg ho]
  · intro hlt
    unfold Game.check_goal Game.handle_goal_collision
    by_cases ho : collide player_rect goal_rect = true
    · rw [if_pos ho, if_neg (not_le.mpr hlt)]
    · rw [if_neg ho]
  · intro hb
    unfold Game.handle_level_progression at hb
    cases hL : g.level_complete_time with
    | none =>
        rw [hL] at hb
        exact absurd hb (by simp)
    | some t =>
        rw [hL] at hb
        dsimp only at hb
        by_cases hcond : g.completed = true ∧ now - t > LEVEL_COMPLETE_DELAY
        · exact ⟨t, rfl, hcond.2⟩
        · rw [if_neg hcond] at hb
          exact absurd hb (by simp)

/-- C6 (witness): the gating theorem applied at concrete progression
states: a state with all 5 presents collected that first touches the goal
at `now = 50`, an already-completed state whose timestamp is untouched by
a second goal touch, a state with too few presents that is unchanged by a
goal touch, and a completed state at `now = 4000` whose `next_level`
invocation happens `3900 > 3000` ms after its recorded timestamp 100. -/
theorem C6_completion_gating_witness :
    (((Game.check_goal ⟨5, 5, false, none, 0, 2, 3⟩ ⟨0, 0, 10, 10⟩ ⟨5, 5, 10, 10⟩ 50).completed
          = true →
        (⟨5, 5, false, none, 0, 2, 3⟩ : Game.ProgState).completed = true ∨
          (collide ⟨0, 0, 10, 10⟩ ⟨5, 5, 10, 10⟩ = true ∧
            (⟨5, 5, false, none, 0, 2, 3⟩ : Game.ProgState).score
              ≥ (⟨5, 5, false, none, 0, 2, 3⟩ : Game.ProgState).total_presents)) ∧
      (Game.check_goal ⟨5, 5, false, none, 0, 2, 3⟩ ⟨0, 0, 10, 10⟩ ⟨5, 5, 10, 10⟩ 50).level_complete_time
          = some 50) ∧
    ((Game.check_goal ⟨5, 5, true, some 100, 0, 2, 3⟩ ⟨0, 0, 10, 10⟩ ⟨5, 5, 10, 10⟩ 50).level_complete_time
        = (⟨5, 5, true, some 100, 0, 2, 3⟩ : Game.ProgState).level_complete_time) ∧
    (Game.check_goal ⟨0, 5, false, none, 0, 2, 3⟩ ⟨0, 0, 10, 10⟩ ⟨5, 5, 10, 10⟩ 7
        = ⟨0, 5, false, none, 0, 2, 3⟩) ∧
    (∃ t, (⟨5, 5, true, some 100, 0, 2, 3⟩ : Game.ProgState).level_complete_time = some t ∧
      (4000 : ℤ) - t > LEVEL_COMPLETE_DELAY) :=
  ⟨⟨(C6_completion_requires_presents_goal_and_delay
        ⟨5, 5, false, none, 0, 2, 3⟩ ⟨0, 0, 10, 10⟩ ⟨5, 5, 10, 10⟩ 50).1,
      (C6_completion_requires_presents_goal_and_delay
        ⟨5, 5, false, none, 0, 2, 3⟩ ⟨0, 0, 10, 10⟩ ⟨5, 5, 10, 10⟩ 50).2.1 rfl (by decide)⟩,
    (C6_completion_requires_presents_goal_and_delay
      ⟨5, 5, true, some 100, 0, 2, 3⟩ ⟨0, 0, 10, 10⟩ ⟨5, 5, 10, 10⟩ 50).2.2.1 rfl,
    (C6_completion_requires_presents_goal_and_delay
      ⟨0, 5, false, none, 0, 2, 3⟩ ⟨0, 0, 10, 10⟩ ⟨5, 5, 10, 10⟩ 7).2.2.2.1 (by decide),
    (C6_completion_requires_presents_goal_and_delay
      ⟨5, 5, true, some 100, 0, 2, 3⟩ ⟨0, 0, 10, 10⟩ ⟨5, 5, 10, 10⟩ 4000).2.2.2.2 (by decide)⟩

/-- The horizontal-resolution loop body never changes vertical data, the
rectangle size, the velocity, or the jump fields. -/
theorem hcolStep_preserves (p : Player) (a : Rect) :
    (Player.hcolStep p a).vx = p.vx ∧
    (Player.hcolStep p a).rect.w = p.rect.w ∧
    (Player.hcolStep p a).rect.y = p.rect.y ∧
    (Player.hcolStep p a).rect.h = p.rect.h ∧
    (Player.hcolStep p a).jumps_remaining = p.jumps_remaining ∧
    (Player.hcolStep p a).max_jumps = p.max_jumps := by
  simp only [Player.hcolStep]
  split_ifs <;>
    exact ⟨by trivial, by trivial, by trivial, by trivial, by trivial, by trivial⟩

/-- While moving right, each horizontal-resolution step can only move the
player's right edge leftward. -/
theorem hcolStep_right_le (p : Player) (a : Rect) (h : p.vx > 0) :
    (Player.hcolStep p a).rect.right ≤ p.rect.right := by
  simp only [Player.hcolStep]
  split_ifs with hc
  · simp only [collide, Bool.and_eq_true, decide_eq_true_eq] at hc
    obtain ⟨⟨⟨_, hc2⟩, _⟩, _⟩ := hc
    simp only [Rect.right, Rect.setRight, Rect.left]
    omega
  · exact le_refl _

/-- While moving left, each horizontal-resolution step can only move the
player's left edge rightward. -/
theorem hcolStep_left_ge (p : Player) (a : Rect) (h : p.vx < 0) :
    p.rect.left ≤ (Player.hcolStep p a).rect.left := by
  simp only [Player.hcolStep]
  split_ifs with hc hv
  · exact absurd hv (by exact not_lt.mpr (le_of_lt h))
  · simp only [collide, Bool.and_eq_true, decide_eq_true_eq] at hc
    obtain ⟨⟨⟨hc1, _⟩, _⟩, _⟩ := hc
    simp only [Rect.left, Rect.setLeft, Rect.right]
    omega
  · exact le_refl _

/-- Over the whole platform loop, a rightward-moving player's right edge
never moves rightward. -/
theorem hfold_right_le (l : List Rect) (p : Player) (h : p.vx > 0) :
    (l.foldl Player.hcolStep p).rect.right ≤ p.rect.right := by
  induction l generalizing p with
  | nil => exact le_refl _
  | cons a t ih =>
      simp only [List.foldl_cons]
      have hv : (Player.hcolStep p a).vx = p.vx := (hcolStep_preserves p a).1
      exact le_trans (ih (Player.hcolStep p a) (by rw [hv]; exact h))
        (hcolStep_right_le p a h)

/-- Over the whole platform loop, a leftward-moving player's left edge
never moves leftward. -/
theorem hfold_left_ge (l : List Rect) (p : Player) (h : p.vx < 0) :
    p.rect.left ≤ (l.foldl Player.hcolStep p).rect.left := by
  induction l generalizing p with
  | nil => exact le_refl _
  | cons a t ih =>
      simp only [List.foldl_cons]
      have hv : (Player.hcolStep p a).vx = p.vx := (hcolStep_preserves p a).1
      exact le_trans (hcolStep_left_ge p a h)
        (ih (Player.hcolStep p a) (by rw [hv]; exact h))

/-- C3 (counterexample): with platforms `[(0,0,100,60), (90,0,40,60)]`
and a rightward-moving player entering at `x = 100`, horizontal
resolution snaps the player out of the second platform back into the
first: the final rectangle `(50,0,40,60)` overlaps a listed platform, and
its advancing right edge (90) sits strictly inside that platform's
horizontal interior `(0, 100]` — the later platform's snap re-created an
overlap ("last overlap wins"), refuting the claim that no platform
overlaps the player on the side of its motion. -/
theorem C3_counterexample_reintroduced_overlap :
    (let p : Player := { Player.init 100 0 with vx := (1 : ℚ) }
    let plats : List Rect := [⟨0, 0, 100, 60⟩, ⟨90, 0, 40, 60⟩]
    let q := p.resolve_horizontal_collisions plats
    p.vx > 0 ∧ (⟨0, 0, 100, 60⟩ : Rect) ∈ plats ∧
      collide q.rect ⟨0, 0, 100, 60⟩ = true ∧
      Rect.left ⟨0, 0, 100, 60⟩ < q.rect.right ∧
      q.rect.right ≤ Rect.right ⟨0, 0, 100, 60⟩) := by
  decide

/-- C3 (amended): after horizontal resolution the player rectangle does
not overlap any listed platform that lay ahead of it in the direction of
motion when resolution began (for `vx > 0`, platforms whose left edge is
at or beyond the player's post-resync right edge; symmetrically for
`vx < 0`).  Platforms behind the motion can be re-overlapped when a
later-listed platform's snap pushes the player back into them (last
overlapping platform in list order wins). -/
theorem C3_amended_no_overlap_with_platforms_ahead (p : Player)
    (platforms : List Rect) (plat : Rect) (hmem : plat ∈ platforms) :
    (p.vx > 0 → pyInt p.x + p.rect.w ≤ plat.left →
      collide (p.resolve_horizontal_collisions platforms).rect plat = false) ∧
    (p.vx < 0 → plat.right ≤ pyInt p.x →
      collide (p.resolve_horizontal_collisions platforms).rect plat = false) := by
  constructor
  · intro hv hahead
    have hq : (p.resolve_horizontal_collisions platforms).rect.right
        ≤ pyInt p.x + p.rect.w := by
      unfold Player.resolve_horizontal_collisions
      exact hfold_right_le platforms
        { p with rect := { p.rect with x := pyInt p.x } } hv
    have h2 : ¬ ((p.resolve_horizontal_collisions platforms).rect.x
        + (p.resolve_horizontal_collisions platforms).rect.w > plat.x) := by
      simp only [Rect.right] at hq
      simp only [Rect.left] at hahead
      omega
    simp [collide, decide_eq_false h2]
  · intro hv hbehind
    have hq : pyInt p.x
        ≤ (p.resolve_horizontal_collisions platforms).rect.left := by
      unfold Player.resolve_horizontal_collisions
      exact hfold_left_ge platforms
        { p with rect := { p.rect with x := pyInt p.x } } hv
    have h2 : ¬ ((p.resolve_horizontal_collisions platforms).rect.x
        < plat.x + plat.w) := by
      simp only [Rect.left] at hq
      simp only [Rect.right] at hbehind
      omega
    simp [collide, decide_eq_false h2]

/-- C3 (witness): the amended theorem applied to a rightward-moving
player at `x = 0` and the single platform `(200, 0, 50, 60)` lying ahead
of it: after resolution there is no overlap. -/
theorem C3_no_overlap_ahead_witness :
    ((⟨200, 0, 50, 60⟩ : Rect) ∈ ([⟨200, 0, 50, 60⟩] : List Rect)) ∧
      ({ Player.init 0 0 with vx := (1 : ℚ) } : Player).vx > 0 ∧
      pyInt ({ Player.init 0 0 with vx := (1 : ℚ) } : Player).x
          + ({ Player.init 0 0 with vx := (1 : ℚ) } : Player).rect.w
        ≤ Rect.left ⟨200, 0, 50, 60⟩ ∧
      collide (({ Player.init 0 0 with vx := (1 : ℚ) } : Player).resolve_horizontal_collisions
          [⟨200, 0, 50, 60⟩]).rect ⟨200, 0, 50, 60⟩ = false :=
  ⟨by decide, by decide, by decide,
    (C3_amended_no_overlap_with_platforms_ahead
        { Player.init 0 0 with vx := (1 : ℚ) } [⟨200, 0, 50, 60⟩]
        ⟨200, 0, 50, 60⟩ (by decide)).1 (by decide) (by decide)⟩

/-- The vertical-resolution loop body keeps `0 ≤ jumps_remaining ≤ 2`
when `max_jumps ∈ \x7b1, 2\x7d`, and preserves `max_jumps`. -/
theorem vcolStep_inv (s : Player × Bool) (a : Rect)
    (h : 0 ≤ s.1.jumps_remaining ∧ s.1.jumps_remaining ≤ 2 ∧
      (s.1.max_jumps = 1 ∨ s.1.max_jumps = 2)) :
    0 ≤ (Player.vcolStep s a).1.jumps_remaining ∧
      (Player.vcolStep s a).1.jumps_remaining ≤ 2 ∧
      ((Player.vcolStep s a).1.max_jumps = 1 ∨
        (Player.vcolStep s a).1.max_jumps = 2) := by
  obtain ⟨h0, h2, hm⟩ := h
  simp only [Player.vcolStep]
  split_ifs
  · refine ⟨?_, ?_, hm⟩ <;> rcases hm with hm | hm <;> simp [hm]
  · exact ⟨h0, h2, hm⟩
  · exact ⟨h0, h2, hm⟩
  · exact ⟨h0, h2, hm⟩

/-- The vertical-resolution loop keeps `0 ≤ jumps_remaining ≤ 2` when
`max_jumps ∈ \x7b1, 2\x7d`. -/
theorem vfold_inv (l : List Rect) (s : Player × Bool)
    (h : 0 ≤ s.1.jumps_remaining ∧ s.1.jumps_remaining ≤ 2 ∧
      (s.1.max_jumps = 1 ∨ s.1.max_jumps = 2)) :
    0 ≤ (l.foldl Player.vcolStep s).1.jumps_remaining ∧
      (l.foldl Player.vcolStep s).1.jumps_remaining ≤ 2 ∧
      ((l.foldl Player.vcolStep s).1.max_jumps = 1 ∨
        (l.foldl Player.vcolStep s).1.max_jumps = 2) := by
  induction l generalizing s with
  | nil => exact h
  | cons a t ih =>
      simp only [List.foldl_cons]
      exact ih _ (vcolStep_inv s a h)

/-- The boundary clamp keeps `0 ≤ jumps_remaining ≤ 2` when
`max_jumps ∈ \x7b1, 2\x7d`, and preserves `max_jumps`. -/
theorem clamp_to_level_bounds_inv (p : Player) (lw lh : ℤ)
    (h : 0 ≤ p.jumps_remaining ∧ p.jumps_remaining ≤ 2 ∧
      (p.max_jumps = 1 ∨ p.max_jumps = 2)) :
    0 ≤ (p.clamp_to_level_bounds lw lh).jumps_remaining ∧
      (p.clamp_to_level_bounds lw lh).jumps_remaining ≤ 2 ∧
      ((p.clamp_to_level_bounds lw lh).max_jumps = 1 ∨
        (p.clamp_to_level_bounds lw lh).max_jumps = 2) := by
  obtain ⟨h0, h2, hm⟩ := h
  simp only [Player.clamp_to_level_bounds]
  split_ifs
  all_goals
    first
      | exact ⟨h0, h2, hm⟩
      | (refine ⟨?_, ?_, hm⟩ <;> rcases hm with hm | hm <;> simp [hm])

/-- The horizontal-resolution loop never changes the jump fields. -/
theorem hfold_jumps (l : List Rect) (p : Player) :
    (l.foldl Player.hcolStep p).jumps_remaining = p.jumps_remaining ∧
      (l.foldl Player.hcolStep p).max_jumps = p.max_jumps := by
  induction l generalizing p with
  | nil => exact ⟨rfl, rfl⟩
  | cons a t ih =>
      simp only [List.foldl_cons]
      obtain ⟨hj, hmx⟩ := ih (Player.hcolStep p a)
      obtain ⟨_, _, _, _, hj2, hm2⟩ := hcolStep_preserves p a
      exact ⟨hj.trans hj2, hmx.trans hm2⟩

/-- One player operation keeps `0 ≤ jumps_remaining ≤ 2` and
`max_jumps ∈ \x7b1, 2\x7d`. -/
theorem pstep_inv (p : Player) (op : POp)
    (h : 0 ≤ p.jumps_remaining ∧ p.jumps_remaining ≤ 2 ∧
      (p.max_jumps = 1 ∨ p.max_jumps = 2)) :
    0 ≤ (pstep p op).jumps_remaining ∧ (pstep p op).jumps_remaining ≤ 2 ∧
      ((pstep p op).max_jumps = 1 ∨ (pstep p op).max_jumps = 2) := by
  obtain ⟨h0, h2, hm⟩ := h
  cases op with
  | jump =>
      simp only [pstep, Player.jump]
      split_ifs with hj
      · refine ⟨?_, ?_, hm⟩
        · show 0 ≤ p.jumps_remaining - 1
          omega
        · show p.jumps_remaining - 1 ≤ 2
          omega
      · exact ⟨h0, h2, hm⟩
  | applyPowerup k d n =>
      cases k with
      | double_jump =>
          simp only [pstep, Player.apply_powerup, PowerUntil.set]
          split_ifs
          · refine ⟨?_, ?_, hm⟩ <;> rcases hm with hm | hm <;> simp [hm]
          · exact ⟨h0, h2, hm⟩
      | speed_boost => exact ⟨h0, h2, hm⟩
      | invincibility => exact ⟨h0, h2, hm⟩
  | updatePowerups n =>
      simp only [pstep, Player.update_powerups]
      split_ifs <;>
        first
          | exact ⟨h0, h2, Or.inl rfl⟩
          | exact ⟨h0, h2, Or.inr rfl⟩
  | respawn x y n => exact ⟨h0, h2, hm⟩
  | applyPhysics => exact ⟨h0, h2, hm⟩
  | resolveHorizontal plats =>
      simp only [pstep, Player.resolve_horizontal_collisions]
      obtain ⟨hj, hmx⟩ :=
        hfold_jumps plats { p with rect := { p.rect with x := pyInt p.x } }
      refine ⟨?_, ?_, ?_⟩
      · rw [hj]; exact h0
      · rw [hj]; exact h2
      · rw [hmx]; exact hm
  | resolveVertical plats =>
      simp only [pstep, Player.resolve_vertical_collisions]
      exact vfold_inv plats _ ⟨h0, h2, hm⟩
  | clampBounds lw lh => exact clamp_to_level_bounds_inv p lw lh ⟨h0, h2, hm⟩

/-- C4 (counterexample): from a fresh player, apply the double-jump
power-up at `t = 0`, update power-ups (`max_jumps` becomes 2), refill by
hitting the bottom boundary (`jumps_remaining` becomes 2), then update
power-ups after expiry at `t = 15001`: `max_jumps` drops back to 1 while
`jumps_remaining` stays 2, violating `jumps_remaining ≤ max_jumps`. -/
theorem C4_counterexample_jumps_exceed_max :
    (let q := prun (Player.init 0 0)
        [POp.applyPowerup PType.double_jump 15000 0, POp.updatePowerups 0,
         POp.clampBounds 100 50, POp.updatePowerups 15001]
    q.jumps_remaining = 2 ∧ q.max_jumps = 1 ∧
      ¬ q.jumps_remaining ≤ q.max_jumps) := by
  decide

/-- C4 (amended): for every sequence of player operations (jump,
power-up application, power-up update, respawn, physics, per-axis
collision resolution, boundary clamping) starting from a freshly
constructed player, `0 ≤ jumps_remaining ≤ 2` holds; the stronger bound
`jumps_remaining ≤ max_jumps` can be transiently violated when
`update_powerups` lowers `max_jumps` under an unspent refilled budget. -/
theorem C4_amended_jump_budget_bounds (sx sy : ℤ) (ops : List POp) :
    0 ≤ (prun (Player.init sx sy) ops).jumps_remaining ∧
      (prun (Player.init sx sy) ops).jumps_remaining ≤ 2 := by
  have main : ∀ (l : List POp) (p : Player),
      (0 ≤ p.jumps_remaining ∧ p.jumps_remaining ≤ 2 ∧
        (p.max_jumps = 1 ∨ p.max_jumps = 2)) →
      0 ≤ (prun p l).jumps_remaining ∧ (prun p l).jumps_remaining ≤ 2 ∧
        ((prun p l).max_jumps = 1 ∨ (prun p l).max_jumps = 2) := by
    intro l
    induction l with
    | nil => intro p h; exact h
    | cons op t ih =>
        intro p h
        have hstep : prun p (op :: t) = prun (pstep p op) t := rfl
        rw [hstep]
        exact ih (pstep p op) (pstep_inv p op h)
  have h := main ops (Player.init sx sy)
    ⟨(by norm_num : (0 : ℤ) ≤ 1), (by norm_num : (1 : ℤ) ≤ 2), Or.inl rfl⟩
  exact ⟨h.1, h.2.1⟩

end Santa
